/-
Verification of `cgb/user_input.py` (class `UserInput`): a read-only
configuration/input facade over two JSON documents.

Shallow embedding notes:
- JSON values are the inductive `Json`; JSON numbers are rationals
  (the numeric literals that matter here are exact: `0`, `0.5`).
  Python `None` and JSON `null` are the same runtime value in CPython's
  `json` module, so both are `Json.null`.
- Python dicts (as produced by `json.load` and mutated by item assignment)
  are association lists with unique keys; item assignment is `dictInsert`
  (replace the value at an existing key in place, else append), item
  lookup raises `KeyError` when the key is absent, and subscripting a
  non-dict raises `TypeError`.
- Fallible evaluation is `Except Err`; `Err.keyError k` is Python's
  `KeyError(k)` and `Err.typeError` stands for `TypeError`.
-/
import Mathlib

namespace CgbUserInput

/-- A JSON value, as loaded by Python's `json` module. JSON `null` loads as
Python `None`, so `Json.null` plays both roles. -/
inductive Json : Type where
  | null : Json
  | bool (b : Bool) : Json
  | num (q : ℚ) : Json
  | str (s : String) : Json
  | arr (elems : List Json) : Json
  | obj (fields : List (String × Json)) : Json

/-- Errors raised by the dynamic document accesses: Python's `KeyError`
(carrying the missing key) and `TypeError`. -/
inductive Err : Type where
  | keyError (k : String) : Err
  | typeError : Err
deriving DecidableEq

/-- Python dict item lookup `d[k]` on an association list: first matching
key wins (the lists we build have unique keys). -/
def lookupKey : List (String × Json) → String → Option Json
  | [], _ => none
  | p :: ps, k => if p.1 = k then some p.2 else lookupKey ps k

/-- Python dict item assignment `d[k] = v`: replace the value at an existing
key, keeping its position, else append the new binding at the end. -/
def dictInsert : List (String × Json) → String → Json → List (String × Json)
  | [], k, v => [(k, v)]
  | p :: ps, k, v => if p.1 = k then (k, v) :: ps else p :: dictInsert ps k v

/-- The dict built by inserting the pairs of `l` in order into `{}` —
the effect of `for k, v in ...: d[k] = v` starting from an empty dict. -/
def dictOf (l : List (String × Json)) : List (String × Json) :=
  l.foldl (fun d p => dictInsert d p.1 p.2) []

/-- The value a Python dict built from `l` holds at `k`: the value of the
last pair of `l` whose key is `k` (later assignments win), if any. -/
def lastVal : List (String × Json) → String → Option Json
  | [], _ => none
  | p :: ps, k =>
    match lastVal ps k with
    | some v => some v
    | none => if p.1 = k then some p.2 else none

/-- Python key-membership test `k in d` on an association list. -/
def containsKey (d : List (String × Json)) (k : String) : Bool :=
  d.any (fun p => p.1 = k)

/-- Fallible dict item lookup `d[k]`: `KeyError(k)` when the key is absent. -/
def dictGet (d : List (String × Json)) (k : String) : Except Err Json :=
  match lookupKey d k with
  | some v => .ok v
  | none => .error (.keyError k)

/-- Python subscript `x[k]` with a string key on a JSON value: dict lookup
on objects, `TypeError` on every other value (lists and strings take
integer indices only; `None`, numbers and booleans are not subscriptable). -/
def getItem : Json → String → Except Err Json
  | .obj kvs, k => dictGet kvs k
  | _, _ => .error .typeError

/-- Python iteration `for x in v` materialized as a list: the elements of a
JSON array, the keys of an object (insertion order), the one-character
strings of a string; iterating `None`, a number or a boolean raises
`TypeError`. -/
def asList : Json → Except Err (List Json)
  | .arr xs => .ok xs
  | .obj kvs => .ok (kvs.map (fun p => Json.str p.1))
  | .str s => .ok (s.toList.map (fun ch => Json.str (String.mk [ch])))
  | _ => .error .typeError

/-- Python key-membership test `k in v` for the `in` operator as it is used
in the source: the operand is the stored `config` entry, which construction
always sets to a dict; `in` on a non-container raises `TypeError`. -/
def pyContains (c : Json) (k : String) : Except Err Bool :=
  match c with
  | .obj kvs => .ok (containsKey kvs k)
  | _ => .error .typeError

/-- A Python list comprehension `[f(x) for x in l]` over fallible `f`:
left to right, first raised error propagates. -/
def mapExcept {β : Type} (f : Json → Except Err β) : List Json → Except Err (List β)
  | [] => .ok []
  | x :: xs =>
    match f x with
    | .error e => .error e
    | .ok y =>
      match mapExcept f xs with
      | .error e => .error e
      | .ok ys => .ok (y :: ys)

/-- The state of a constructed `UserInput` object: the merged in-memory
structure `self._input`. -/
structure UserInput : Type where
  _input : List (String × Json)

/-- `UserInput.__init__`, after `json.load` has produced the two document
objects: copy the input document's items into `self._input`, then set
`self._input['config'] = {}` and copy the config document's items into that
inner dict. (Filling the fresh inner dict item by item yields the dict
`dictOf configDoc`; the `'config'` assignment is `dictInsert`.)
Construction is total: no key of either document is inspected. -/
def UserInput.build (inputDoc configDoc : List (String × Json)) : UserInput :=
  ⟨dictInsert (dictOf inputDoc) "config" (Json.obj (dictOf configDoc))⟩

/-- `genome_name_and_accessions`:
`[(g['name'], g['accession_numbers']) for g in self._input['genomes']]`. -/
def genome_name_and_accessions (u : UserInput) : Except Err (List (Json × Json)) :=
  match dictGet u._input "genomes" with
  | .error e => .error e
  | .ok gs =>
    match asList gs with
    | .error e => .error e
    | .ok l =>
      mapExcept (fun g =>
        match getItem g "name" with
        | .error e => .error e
        | .ok n =>
          match getItem g "accession_numbers" with
          | .error e => .error e
          | .ok a => .ok (n, a)) l

/-- `protein_accessions`:
`[p['protein_accession'] for p in self._input['motifs']]`. -/
def protein_accessions (u : UserInput) : Except Err (List Json) :=
  match dictGet u._input "motifs" with
  | .error e => .error e
  | .ok ms =>
    match asList ms with
    | .error e => .error e
    | .ok l => mapExcept (fun p => getItem p "protein_accession") l

/-- `TF_name`: `self._input['TF']`. -/
def TF_name (u : UserInput) : Except Err Json :=
  dictGet u._input "TF"

/-- `sites_list`: `[m['sites'] for m in self._input['motifs']]`. -/
def sites_list (u : UserInput) : Except Err (List Json) :=
  match dictGet u._input "motifs" with
  | .error e => .error e
  | .ok ms =>
    match asList ms with
    | .error e => .error e
    | .ok l => mapExcept (fun m => getItem m "sites") l

/-- The double lookup `self._input['config'][k]` shared by the config
accessors. -/
def configGet (u : UserInput) (k : String) : Except Err Json :=
  match dictGet u._input "config" with
  | .error e => .error e
  | .ok c => getItem c k

/-- `log_dir`: `self._input['config']['log_dir']`. -/
def log_dir (u : UserInput) : Except Err Json :=
  configGet u "log_dir"

/-- `prior_regulation_probability`: the double lookup under
`try/except KeyError`, falling back to `None` (`Json.null`); a `TypeError`
is not caught. -/
def prior_regulation_probability (u : UserInput) : Except Err Json :=
  match configGet u "prior_regulation_probability" with
  | .ok v => .ok v
  | .error (.keyError _) => .ok .null
  | .error .typeError => .error .typeError

/-- `has_prior_probability_set`:
`'prior_regulation_probability' in self._input['config']`. -/
def has_prior_probability_set (u : UserInput) : Except Err Bool :=
  match dictGet u._input "config" with
  | .error e => .error e
  | .ok c => pyContains c "prior_regulation_probability"

/-- `probability_threshold`: the double lookup under `try/except KeyError`,
falling back to `0.5`. -/
def probability_threshold (u : UserInput) : Except Err Json :=
  match configGet u "probability_threshold" with
  | .ok v => .ok v
  | .error (.keyError _) => .ok (.num (1 / 2))
  | .error .typeError => .error .typeError

/-- `weighting_scheme`: the double lookup under `try/except KeyError`,
falling back to `'simple'`. -/
def weighting_scheme (u : UserInput) : Except Err Json :=
  match configGet u "weighting_scheme" with
  | .ok v => .ok v
  | .error (.keyError _) => .ok (.str "simple")
  | .error .typeError => .error .typeError

/-! ### Dictionary lemmas -/

theorem lookupKey_dictInsert (d : List (String × Json)) (k0 k : String) (v0 : Json) :
    lookupKey (dictInsert d k0 v0) k = if k = k0 then some v0 else lookupKey d k := by
  induction d with
  | nil =>
    by_cases h : k = k0
    · subst h; simp [dictInsert, lookupKey]
    · simp [dictInsert, lookupKey, h, show ¬ k0 = k from fun hh => h hh.symm]
  | cons p ps ih =>
    simp only [dictInsert]
    by_cases h : p.1 = k0
    · simp only [if_pos h, lookupKey]
      by_cases hk : k = k0
      · subst hk; simp
      · simp [hk, h, show ¬ k0 = k from fun hh => hk hh.symm]
    · simp only [if_neg h, lookupKey, ih]
      by_cases hp : p.1 = k
      · have hk : ¬ k = k0 := fun hh => h (hp.trans hh)
        simp [hp, hk]
      · simp [hp]

theorem lookupKey_foldl (c : List (String × Json)) (k : String) :
    ∀ d, lookupKey (List.foldl (fun d p => dictInsert d p.1 p.2) d c) k =
      match lastVal c k with
      | some v => some v
      | none => lookupKey d k := by
  induction c with
  | nil => intro d; simp [lastVal]
  | cons p ps ih =>
    intro d
    simp only [List.foldl_cons]
    rw [ih]
    simp only [lastVal]
    cases hv : lastVal ps k with
    | some v => simp
    | none =>
      simp only
      rw [lookupKey_dictInsert]
      by_cases hk : k = p.1
      · simp [hk]
      · simp [hk, show ¬ p.1 = k from fun hh => hk hh.symm]

theorem lookupKey_dictOf (c : List (String × Json)) (k : String) :
    lookupKey (dictOf c) k = lastVal c k := by
  rw [dictOf, lookupKey_foldl]
  cases lastVal c k <;> simp [lookupKey]

theorem containsKey_eq_isSome (d : List (String × Json)) (k : String) :
    containsKey d k = (lookupKey d k).isSome := by
  induction d with
  | nil => rfl
  | cons p ps ih =>
    simp only [containsKey, List.any_cons, lookupKey] at ih ⊢
    by_cases h : p.1 = k
    · simp [h]
    · simp [h, ih]

theorem build_lookup_config (i c : List (String × Json)) :
    lookupKey (UserInput.build i c)._input "config" = some (.obj (dictOf c)) := by
  simp [UserInput.build, lookupKey_dictInsert]

theorem build_lookup_of_ne (i c : List (String × Json)) (k : String)
    (h : ¬ k = "config") :
    lookupKey (UserInput.build i c)._input k = lastVal i k := by
  simp [UserInput.build, lookupKey_dictInsert, h, lookupKey_dictOf]

theorem configGet_build (i c : List (String × Json)) (k : String) :
    configGet (UserInput.build i c) k =
      match lastVal c k with
      | some v => .ok v
      | none => .error (.keyError k) := by
  simp only [configGet, dictGet, build_lookup_config, getItem, lookupKey_dictOf]

theorem mapExcept_ok {β : Type} (f : Json → Except Err β) :
    ∀ (l : List Json) (ys : List β), mapExcept f l = .ok ys →
      ys.length = l.length ∧
      ∀ (j : ℕ) (hj : j < l.length) (hy : j < ys.length),
        f (l.get ⟨j, hj⟩) = .ok (ys.get ⟨j, hy⟩) := by
  intro l
  induction l with
  | nil =>
    intro ys h
    simp only [mapExcept] at h
    injection h with h
    subst h
    exact ⟨rfl, fun j hj hy => absurd hj (by simp)⟩
  | cons x xs ih =>
    intro ys h
    simp only [mapExcept] at h
    cases hf : f x with
    | error e => rw [hf] at h; cases h
    | ok y =>
      rw [hf] at h
      cases hm : mapExcept f xs with
      | error e => rw [hm] at h; cases h
      | ok ys0 =>
        rw [hm] at h
        injection h with h
        subst h
        obtain ⟨hlen, hpt⟩ := ih ys0 hm
        refine ⟨by simp [hlen], ?_⟩
        intro j hj hy
        cases j with
        | zero => simpa using hf
        | succ n =>
          simpa using hpt n (by simpa using hj) (by simpa using hy)

/-! ### Accessor evaluation over a constructed instance -/

theorem TF_name_build (i c : List (String × Json)) :
    TF_name (UserInput.build i c) =
      match lastVal i "TF" with
      | some v => .ok v
      | none => .error (.keyError "TF") := by
  simp only [TF_name, dictGet, build_lookup_of_ne i c "TF" (by decide)]

theorem log_dir_build (i c : List (String × Json)) :
    log_dir (UserInput.build i c) =
      match lastVal c "log_dir" with
      | some v => .ok v
      | none => .error (.keyError "log_dir") := by
  simp only [log_dir, configGet_build]

theorem prior_build (i c : List (String × Json)) :
    prior_regulation_probability (UserInput.build i c) =
      match lastVal c "prior_regulation_probability" with
      | some v => .ok v
      | none => .ok .null := by
  simp only [prior_regulation_probability, configGet_build]
  cases lastVal c "prior_regulation_probability" <;> rfl

theorem has_prior_build (i c : List (String × Json)) :
    has_prior_probability_set (UserInput.build i c) =
      .ok ((lastVal c "prior_regulation_probability").isSome) := by
  simp only [has_prior_probability_set, dictGet, build_lookup_config, pyContains,
    containsKey_eq_isSome, lookupKey_dictOf]

theorem probability_threshold_build (i c : List (String × Json)) :
    probability_threshold (UserInput.build i c) =
      match lastVal c "probability_threshold" with
      | some v => .ok v
      | none => .ok (.num (1 / 2)) := by
  simp only [probability_threshold, configGet_build]
  cases lastVal c "probability_threshold" <;> rfl

theorem weighting_scheme_build (i c : List (String × Json)) :
    weighting_scheme (UserInput.build i c) =
      match lastVal c "weighting_scheme" with
      | some v => .ok v
      | none => .ok (.str "simple") := by
  simp only [weighting_scheme, configGet_build]
  cases lastVal c "weighting_scheme" <;> rfl

theorem protein_accessions_build (i c : List (String × Json)) :
    protein_accessions (UserInput.build i c) =
      match lastVal i "motifs" with
      | none => .error (.keyError "motifs")
      | some ms =>
        match asList ms with
        | .error e => .error e
        | .ok l => mapExcept (fun p => getItem p "protein_accession") l := by
  simp only [protein_accessions, dictGet, build_lookup_of_ne i c "motifs" (by decide)]
  cases lastVal i "motifs" <;> rfl

theorem sites_list_build (i c : List (String × Json)) :
    sites_list (UserInput.build i c) =
      match lastVal i "motifs" with
      | none => .error (.keyError "motifs")
      | some ms =>
        match asList ms with
        | .error e => .error e
        | .ok l => mapExcept (fun m => getItem m "sites") l := by
  simp only [sites_list, dictGet, build_lookup_of_ne i c "motifs" (by decide)]
  cases lastVal i "motifs" <;> rfl

theorem genome_name_and_accessions_build (i c : List (String × Json)) :
    genome_name_and_accessions (UserInput.build i c) =
      match lastVal i "genomes" with
      | none => .error (.keyError "genomes")
      | some gs =>
        match asList gs with
        | .error e => .error e
        | .ok l =>
          mapExcept (fun g =>
            match getItem g "name" with
            | .error e => .error e
            | .ok n =>
              match getItem g "accession_numbers" with
              | .error e => .error e
              | .ok a => .ok (n, a)) l := by
  simp only [genome_name_and_accessions, dictGet, build_lookup_of_ne i c "genomes" (by decide)]
  cases lastVal i "genomes" <;> rfl

/-! ### Claims -/

/-- C2: for every constructed instance, `has_prior_probability_set` returns
true iff the key `prior_regulation_probability` is present in the config
document, independent of the value stored under that key (in particular it
is true when the configured value is `0`). -/
theorem C2_has_prior_iff_present (i c : List (String × Json)) :
    has_prior_probability_set (UserInput.build i c) =
      .ok ((lastVal c "prior_regulation_probability").isSome) ∧
    (∀ v, lastVal c "prior_regulation_probability" = some v →
      has_prior_probability_set (UserInput.build i c) = .ok true) := by
  refine ⟨has_prior_build i c, fun v h => ?_⟩
  rw [has_prior_build, h]
  rfl

/-- C2 witness: the key present with value `0` still reads as set. -/
theorem C2_has_prior_iff_present_witness :
    has_prior_probability_set
      (UserInput.build [] [("prior_regulation_probability", .num 0)]) = .ok true :=
  (C2_has_prior_iff_present [] [("prior_regulation_probability", .num 0)]).2 (.num 0) rfl

/-- C3: if the key `prior_regulation_probability` is absent from the config
document, the accessor returns the sentinel `None` (`Json.null`), which is
distinct from every float; if the key is present, the accessor returns the
configured value. -/
theorem C3_prior_sentinel (i c : List (String × Json)) :
    (lastVal c "prior_regulation_probability" = none →
      prior_regulation_probability (UserInput.build i c) = .ok .null) ∧
    (∀ v, lastVal c "prior_regulation_probability" = some v →
      prior_regulation_probability (UserInput.build i c) = .ok v) ∧
    (∀ q : ℚ, Json.null ≠ Json.num q) := by
  refine ⟨fun h => ?_, fun v h => ?_, fun q h => ?_⟩
  · rw [prior_build, h]
  · rw [prior_build, h]
  · cases h

/-- C3 witness: the sentinel on an empty config, the configured value on a
config carrying `1/4`. -/
theorem C3_prior_sentinel_witness :
    prior_regulation_probability (UserInput.build [] []) = .ok .null ∧
    prior_regulation_probability
      (UserInput.build [] [("prior_regulation_probability", .num (1 / 4))]) =
      .ok (.num (1 / 4)) :=
  ⟨(C3_prior_sentinel [] []).1 rfl,
   (C3_prior_sentinel [] [("prior_regulation_probability", .num (1 / 4))]).2.1 _ rfl⟩

/-- C5: omitting `probability_threshold` from the config document yields
exactly `0.5`, and omitting `weighting_scheme` yields exactly `"simple"`. -/
theorem C5_defaults (i c : List (String × Json)) :
    (lastVal c "probability_threshold" = none →
      probability_threshold (UserInput.build i c) = .ok (.num (1 / 2))) ∧
    (lastVal c "weighting_scheme" = none →
      weighting_scheme (UserInput.build i c) = .ok (.str "simple")) := by
  constructor
  · intro h; rw [probability_threshold_build, h]
  · intro h; rw [weighting_scheme_build, h]

/-- C5 witness: both defaults on an empty config document. -/
theorem C5_defaults_witness :
    probability_threshold (UserInput.build [] []) = .ok (.num (1 / 2)) ∧
    weighting_scheme (UserInput.build [] []) = .ok (.str "simple") :=
  ⟨(C5_defaults [] []).1 rfl, (C5_defaults [] []).2 rfl⟩

/-- C6 counterexample: the accessor performs no validation, so a config
document storing `"custom"` under `weighting_scheme` makes the accessor
return `"custom"`, which is neither `"simple"` nor `"phylogenetic"`. -/
theorem C6_counterexample :
    weighting_scheme (UserInput.build [] [("weighting_scheme", .str "custom")]) =
      .ok (.str "custom") ∧
    ¬ (weighting_scheme (UserInput.build [] [("weighting_scheme", .str "custom")]) =
        .ok (.str "simple") ∨
       weighting_scheme (UserInput.build [] [("weighting_scheme", .str "custom")]) =
        .ok (.str "phylogenetic")) := by
  have hc : weighting_scheme
      (UserInput.build [] [("weighting_scheme", .str "custom")]) =
      .ok (.str "custom") := rfl
  refine ⟨hc, ?_⟩
  rintro (h | h) <;> rw [hc] at h <;>
    · injection h with h
      injection h with h
      exact absurd h (by decide)

/-- C6 amended: the accessor returns the value stored under
`weighting_scheme` unvalidated (whatever it is), returns `"simple"` when
the key is absent, and its result is one of `"simple"`/`"phylogenetic"`
exactly when the config document stores one of those two strings under the
key or omits the key. -/
theorem C6_amended_weighting (i c : List (String × Json)) :
    (∀ v, lastVal c "weighting_scheme" = some v →
      weighting_scheme (UserInput.build i c) = .ok v) ∧
    (lastVal c "weighting_scheme" = none →
      weighting_scheme (UserInput.build i c) = .ok (.str "simple")) ∧
    ((weighting_scheme (UserInput.build i c) = .ok (.str "simple") ∨
      weighting_scheme (UserInput.build i c) = .ok (.str "phylogenetic")) ↔
     (lastVal c "weighting_scheme" = none ∨
      lastVal c "weighting_scheme" = some (.str "simple") ∨
      lastVal c "weighting_scheme" = some (.str "phylogenetic"))) := by
  have hb := weighting_scheme_build i c
  refine ⟨fun v h => ?_, fun h => ?_, ?_⟩
  · rw [hb, h]
  · rw [hb, h]
  · rw [hb]
    cases hv : lastVal c "weighting_scheme" with
    | none => simp
    | some v => simp

/-- C6 amended witness: a stored `"phylogenetic"` is passed through
unchanged, and an empty config yields the default `"simple"`. -/
theorem C6_amended_weighting_witness :
    weighting_scheme (UserInput.build [] [("weighting_scheme", .str "phylogenetic")]) =
      .ok (.str "phylogenetic") ∧
    weighting_scheme (UserInput.build [] []) = .ok (.str "simple") :=
  ⟨(C6_amended_weighting [] [("weighting_scheme", .str "phylogenetic")]).1
      (.str "phylogenetic") rfl,
   (C6_amended_weighting [] []).2.1 rfl⟩

/-- C10: if the config document maps `prior_regulation_probability` to JSON
`null`, the value accessor returns the same sentinel (`Json.null`, Python
`None`) as when the key is absent, while `has_prior_probability_set`
returns true. -/
theorem C10_null_prior (i c : List (String × Json))
    (h : lastVal c "prior_regulation_probability" = some .null) :
    prior_regulation_probability (UserInput.build i c) = .ok .null ∧
    has_prior_probability_set (UserInput.build i c) = .ok true ∧
    ∀ c2, lastVal c2 "prior_regulation_probability" = none →
      prior_regulation_probability (UserInput.build i c2) = .ok .null := by
  refine ⟨?_, ?_, fun c2 h2 => ?_⟩
  · rw [prior_build, h]
  · rw [has_prior_build, h]; rfl
  · rw [prior_build, h2]

/-- C10 witness: a config document mapping the key to `null`. -/
theorem C10_null_prior_witness :
    prior_regulation_probability
      (UserInput.build [] [("prior_regulation_probability", .null)]) = .ok .null ∧
    has_prior_probability_set
      (UserInput.build [] [("prior_regulation_probability", .null)]) = .ok true :=
  ⟨(C10_null_prior [] [("prior_regulation_probability", .null)] rfl).1,
   (C10_null_prior [] [("prior_regulation_probability", .null)] rfl).2.1⟩

/-- C4: construction never inspects the documents' keys (its result is the
merged structure, for every pair of documents), and omitting a required key
makes the corresponding accessor — and only at invocation time — fail with
a missing-required-key error naming that key. -/
theorem C4_lazy_required_keys (i c : List (String × Json)) :
    (UserInput.build i c)._input =
      dictInsert (dictOf i) "config" (.obj (dictOf c)) ∧
    (lastVal i "TF" = none →
      TF_name (UserInput.build i c) = .error (.keyError "TF")) ∧
    (lastVal i "genomes" = none →
      genome_name_and_accessions (UserInput.build i c) =
        .error (.keyError "genomes")) ∧
    (lastVal i "motifs" = none →
      protein_accessions (UserInput.build i c) = .error (.keyError "motifs") ∧
      sites_list (UserInput.build i c) = .error (.keyError "motifs")) ∧
    (lastVal c "log_dir" = none →
      log_dir (UserInput.build i c) = .error (.keyError "log_dir")) := by
  refine ⟨rfl, fun h => ?_, fun h => ?_, fun h => ⟨?_, ?_⟩, fun h => ?_⟩
  · rw [TF_name_build, h]
  · rw [genome_name_and_accessions_build, h]
  · rw [protein_accessions_build, h]
  · rw [sites_list_build, h]
  · rw [log_dir_build, h]

/-- C4 witness: both documents empty — construction succeeds and each
required-key accessor fails with the error naming its key. -/
theorem C4_lazy_required_keys_witness :
    TF_name (UserInput.build [] []) = .error (.keyError "TF") ∧
    genome_name_and_accessions (UserInput.build [] []) =
      .error (.keyError "genomes") ∧
    protein_accessions (UserInput.build [] []) = .error (.keyError "motifs") ∧
    sites_list (UserInput.build [] []) = .error (.keyError "motifs") ∧
    log_dir (UserInput.build [] []) = .error (.keyError "log_dir") :=
  ⟨(C4_lazy_required_keys [] []).2.1 rfl,
   (C4_lazy_required_keys [] []).2.2.1 rfl,
   ((C4_lazy_required_keys [] []).2.2.2.1 rfl).1,
   ((C4_lazy_required_keys [] []).2.2.2.1 rfl).2,
   (C4_lazy_required_keys [] []).2.2.2.2 rfl⟩

theorem pair_proj_ok (g : Json) (p : Json × Json)
    (h : (match getItem g "name" with
          | .error e => .error e
          | .ok n =>
            match getItem g "accession_numbers" with
            | .error e => .error e
            | .ok a => .ok (n, a)) = Except.ok p) :
    getItem g "name" = .ok p.1 ∧ getItem g "accession_numbers" = .ok p.2 := by
  cases hn : getItem g "name" with
  | error e => rw [hn] at h; cases h
  | ok n =>
    rw [hn] at h
    cases ha : getItem g "accession_numbers" with
    | error e => rw [ha] at h; cases h
    | ok a =>
      rw [ha] at h
      injection h with h
      subst h
      exact ⟨rfl, rfl⟩

/-- C7: round-trip — `TF_name` returns exactly the document's `TF` value,
`log_dir` exactly the config document's `log_dir` value, and
`genome_name_and_accessions` the (name, accession_numbers) pair of the
i-th `genomes` entry, in source order, with no transformation. -/
theorem C7_round_trip (i c : List (String × Json)) :
    (∀ v, lastVal i "TF" = some v → TF_name (UserInput.build i c) = .ok v) ∧
    (∀ v, lastVal c "log_dir" = some v → log_dir (UserInput.build i c) = .ok v) ∧
    (∀ gs res, lastVal i "genomes" = some (.arr gs) →
      genome_name_and_accessions (UserInput.build i c) = .ok res →
      res.length = gs.length ∧
      ∀ (j : ℕ) (hj : j < gs.length) (hr : j < res.length),
        getItem (gs.get ⟨j, hj⟩) "name" = .ok (res.get ⟨j, hr⟩).1 ∧
        getItem (gs.get ⟨j, hj⟩) "accession_numbers" = .ok (res.get ⟨j, hr⟩).2) := by
  refine ⟨fun v h => ?_, fun v h => ?_, fun gs res h hres => ?_⟩
  · rw [TF_name_build, h]
  · rw [log_dir_build, h]
  · rw [genome_name_and_accessions_build, h] at hres
    obtain ⟨hlen, hpt⟩ := mapExcept_ok _ gs res hres
    exact ⟨hlen, fun j hj hr => pair_proj_ok _ _ (hpt j hj hr)⟩

/-- C7 witness: the spec's example documents, projected exactly. -/
theorem C7_round_trip_witness :
    TF_name (UserInput.build
      [("TF", .str "LexA"),
       ("genomes", .arr [.obj [("name", .str "E. coli"),
                               ("accession_numbers", .arr [.str "NC_000913"])]])]
      [("log_dir", .str "/tmp/log")]) = .ok (.str "LexA") ∧
    log_dir (UserInput.build
      [("TF", .str "LexA"),
       ("genomes", .arr [.obj [("name", .str "E. coli"),
                               ("accession_numbers", .arr [.str "NC_000913"])]])]
      [("log_dir", .str "/tmp/log")]) = .ok (.str "/tmp/log") :=
  ⟨(C7_round_trip
      [("TF", .str "LexA"),
       ("genomes", .arr [.obj [("name", .str "E. coli"),
                               ("accession_numbers", .arr [.str "NC_000913"])]])]
      [("log_dir", .str "/tmp/log")]).1 (.str "LexA") rfl,
   (C7_round_trip
      [("TF", .str "LexA"),
       ("genomes", .arr [.obj [("name", .str "E. coli"),
                               ("accession_numbers", .arr [.str "NC_000913"])]])]
      [("log_dir", .str "/tmp/log")]).2.1 (.str "/tmp/log") rfl⟩

/-- C9: the stored `config` entry is unconditionally repopulated from the
config document alone — whatever `config` key the input document carries —
and every config accessor is insensitive to the input document. -/
theorem C9_config_reset (i i2 c : List (String × Json)) :
    lookupKey (UserInput.build i c)._input "config" = some (.obj (dictOf c)) ∧
    log_dir (UserInput.build i c) = log_dir (UserInput.build i2 c) ∧
    prior_regulation_probability (UserInput.build i c) =
      prior_regulation_probability (UserInput.build i2 c) ∧
    has_prior_probability_set (UserInput.build i c) =
      has_prior_probability_set (UserInput.build i2 c) ∧
    probability_threshold (UserInput.build i c) =
      probability_threshold (UserInput.build i2 c) ∧
    weighting_scheme (UserInput.build i c) =
      weighting_scheme (UserInput.build i2 c) := by
  refine ⟨build_lookup_config i c, ?_, ?_, ?_, ?_, ?_⟩
  · rw [log_dir_build, log_dir_build]
  · rw [prior_build, prior_build]
  · rw [has_prior_build, has_prior_build]
  · rw [probability_threshold_build, probability_threshold_build]
  · rw [weighting_scheme_build, weighting_scheme_build]

/-- C1: when the input document carries a `motifs` key and both motif
accessors return, the two returned sequences have equal length and entry
`j` of each is projected from the `j`-th element of the iterated `motifs`
value, in source order. -/
theorem C1_parallel_motifs (i c : List (String × Json)) (m : Json)
    (ps ss : List Json)
    (hm : lastVal i "motifs" = some m)
    (hp : protein_accessions (UserInput.build i c) = .ok ps)
    (hs : sites_list (UserInput.build i c) = .ok ss) :
    ps.length = ss.length ∧
    ∃ l, asList m = .ok l ∧ ps.length = l.length ∧ ss.length = l.length ∧
      ∀ (j : ℕ) (hj : j < l.length) (hjp : j < ps.length) (hjs : j < ss.length),
        getItem (l.get ⟨j, hj⟩) "protein_accession" = .ok (ps.get ⟨j, hjp⟩) ∧
        getItem (l.get ⟨j, hj⟩) "sites" = .ok (ss.get ⟨j, hjs⟩) := by
  rw [protein_accessions_build, hm] at hp
  rw [sites_list_build, hm] at hs
  have hp2 : (match asList m with
      | Except.error e => Except.error e
      | Except.ok l => mapExcept (fun p => getItem p "protein_accession") l) =
      Except.ok ps := hp
  have hs2 : (match asList m with
      | Except.error e => Except.error e
      | Except.ok l => mapExcept (fun m2 => getItem m2 "sites") l) =
      Except.ok ss := hs
  cases hl : asList m with
  | error e => rw [hl] at hp2; cases hp2
  | ok l =>
    rw [hl] at hp2 hs2
    obtain ⟨hplen, hppt⟩ := mapExcept_ok _ l ps hp2
    obtain ⟨hslen, hspt⟩ := mapExcept_ok _ l ss hs2
    exact ⟨hplen.trans hslen.symm, l, rfl, hplen, hslen,
      fun j hj hjp hjs => ⟨hppt j hj hjp, hspt j hj hjs⟩⟩

/-- C1 witness: two motif entries, projected in parallel. -/
theorem C1_parallel_motifs_witness :
    ([Json.str "P1", Json.str "P2"] : List Json).length =
      ([Json.arr [Json.str "AAA"], Json.arr [Json.str "GGG"]] : List Json).length ∧
    ∃ l, asList (Json.arr
        [Json.obj [("protein_accession", .str "P1"), ("sites", .arr [.str "AAA"])],
         Json.obj [("protein_accession", .str "P2"), ("sites", .arr [.str "GGG"])]]) =
        .ok l ∧
      ([Json.str "P1", Json.str "P2"] : List Json).length = l.length ∧
      ([Json.arr [Json.str "AAA"], Json.arr [Json.str "GGG"]] : List Json).length =
        l.length ∧
      ∀ (j : ℕ) (hj : j < l.length)
        (hjp : j < ([Json.str "P1", Json.str "P2"] : List Json).length)
        (hjs : j < ([Json.arr [Json.str "AAA"],
                     Json.arr [Json.str "GGG"]] : List Json).length),
        getItem (l.get ⟨j, hj⟩) "protein_accession" =
          .ok (([Json.str "P1", Json.str "P2"] : List Json).get ⟨j, hjp⟩) ∧
        getItem (l.get ⟨j, hj⟩) "sites" =
          .ok (([Json.arr [Json.str "AAA"],
                 Json.arr [Json.str "GGG"]] : List Json).get ⟨j, hjs⟩) :=
  C1_parallel_motifs
    [("motifs", .arr
        [.obj [("protein_accession", .str "P1"), ("sites", .arr [.str "AAA"])],
         .obj [("protein_accession", .str "P2"), ("sites", .arr [.str "GGG"])]])]
    []
    (.arr
        [.obj [("protein_accession", .str "P1"), ("sites", .arr [.str "AAA"])],
         .obj [("protein_accession", .str "P2"), ("sites", .arr [.str "GGG"])]])
    [Json.str "P1", Json.str "P2"]
    [Json.arr [Json.str "AAA"], Json.arr [Json.str "GGG"]]
    rfl rfl rfl

/-- The accessor surface of `UserInput`, as data, for stating purity. -/
inductive Accessor : Type where
  | genomeNA : Accessor
  | proteinAcc : Accessor
  | tfName : Accessor
  | sitesL : Accessor
  | logDir : Accessor
  | priorProb : Accessor
  | hasPrior : Accessor
  | probThresh : Accessor
  | weighting : Accessor

/-- Result of one accessor invocation (the four return shapes). -/
inductive AccResult : Type where
  | js (v : Except Err Json) : AccResult
  | jlist (v : Except Err (List Json)) : AccResult
  | jpairs (v : Except Err (List (Json × Json))) : AccResult
  | jbool (v : Except Err Bool) : AccResult

/-- One property read in explicit-state form: the value produced and the
object state afterwards. Every accessor body in the source only reads
`self._input` (no statement assigns to `self` or into the structure), so
each invocation carries the state through unchanged. -/
def invoke (a : Accessor) (u : UserInput) : AccResult × UserInput :=
  match a with
  | .genomeNA => (.jpairs (genome_name_and_accessions u), u)
  | .proteinAcc => (.jlist (protein_accessions u), u)
  | .tfName => (.js (TF_name u), u)
  | .sitesL => (.jlist (sites_list u), u)
  | .logDir => (.js (log_dir u), u)
  | .priorProb => (.js (prior_regulation_probability u), u)
  | .hasPrior => (.jbool (has_prior_probability_set u), u)
  | .probThresh => (.js (probability_threshold u), u)
  | .weighting => (.js (weighting_scheme u), u)

/-- The object state after a sequence of accessor invocations. -/
def runAll (u : UserInput) : List Accessor → UserInput
  | [] => u
  | a :: rest => runAll (invoke a u).2 rest

/-- C8: accessors are pure reads — any sequence of invocations leaves the
merged structure unchanged, and each accessor's invocation after any such
sequence returns the same result as on the freshly constructed state. -/
theorem C8_accessors_pure (u : UserInput) (ops : List Accessor) :
    runAll u ops = u ∧
    ∀ a : Accessor, invoke a (runAll u ops) = invoke a u ∧ (invoke a u).2 = u := by
  have hsnd : ∀ (a : Accessor) (w : UserInput), (invoke a w).2 = w := by
    intro a w; cases a <;> rfl
  have hrun : ∀ (ops2 : List Accessor) (w : UserInput), runAll w ops2 = w := by
    intro ops2
    induction ops2 with
    | nil => intro w; rfl
    | cons a rest ih =>
      intro w
      simp only [runAll, hsnd]
      exact ih w
  exact ⟨hrun ops u, fun a => ⟨by rw [hrun ops u], hsnd a u⟩⟩

end CgbUserInput
